import Mathlib

/-!
Verification of the AgentOne chat backend (Express + better-sqlite3 + Ollama
relay) against its natural-language specification.

The embedding below translates the relevant server code into Lean:

* the SQLite schema of the `sessions`, `chats` and `chats_fts` tables
  (`server/src/sqlite.ts`) becomes record types and an explicit `Db` state;
* `saveChatMessage`, the `streamResponse` loop of `POST /chat`, and the
  `/session` route handlers (`PUT /:sessionUid`, `DELETE /:sessionUid`,
  `POST /:sessionUid/chat/delete`) become pure state-passing functions.

JavaScript conventions modelled explicitly:

* `undefined` / absent request fields are `Option.none`; string defaults
  (`sessionUid = ""`, `chatUid = ""`) are applied where the destructuring
  in the source applies them;
* JS truthiness on strings: `""` is falsy; on numbers: `0` is falsy;
* `slugid.nice()` and `new Date().toISOString()` are nondeterministic at
  the JS level, so the fresh uids and the current timestamp are passed in
  as explicit parameters;
* `JSON.parse` of an upstream stream line is modelled abstractly: a line
  is `StreamLine.ok d` iff it is well-formed JSON parsing to the chunk
  object `d`, and `StreamLine.malformed` iff `JSON.parse` throws.
-/

namespace AgentOne

/-- A row of the `sessions` table
(`CREATE TABLE sessions (id INTEGER PRIMARY KEY AUTOINCREMENT, uid TEXT,
name TEXT, model TEXT, temperature FLOAT DEFAULT 0.7, createdAt DATETIME,
updatedAt DATETIME, modelFileId TEXT, templateId TEXT,
isArchive INTEGER DEFAULT 0, jsonMeta TEXT)`).
Nullable columns are `Option`; `temperature` is a rational standing for the
SQL FLOAT. -/
structure SessionRow where
  id : Nat
  uid : String
  name : String
  model : String
  temperature : Option ℚ
  createdAt : String
  updatedAt : String
  modelFileId : Option String
  templateId : Option String
  isArchive : Int
  jsonMeta : Option String
  deriving Repr, DecidableEq

/-- A row of the `chats` table
(`CREATE TABLE chats (id INTEGER PRIMARY KEY AUTOINCREMENT, uid TEXT,
sessionId INTEGER, query TEXT, reply TEXT, role TEXT, createdAt DATETIME,
jsonMeta TEXT)`). `sessionId` is nullable (the insert binds
`get(session, "id", null)`). -/
structure ChatRow where
  id : Nat
  uid : String
  sessionId : Option Int
  query : String
  reply : String
  role : String
  createdAt : String
  jsonMeta : String
  deriving Repr, DecidableEq

/-- A row of the `chats_fts` FTS5 virtual table as the code populates it:
`INSERT INTO chats_fts (id, query, reply) VALUES (?, ?, ?)` with `id` bound
to the `lastInsertRowid` of the `chats` insert. -/
structure FtsRow where
  id : Nat
  query : String
  reply : String
  deriving Repr, DecidableEq

/-- The database state the chat endpoints touch.  `nextSessionId` and
`nextChatId` model the AUTOINCREMENT rowid counters (`lastInsertRowid`). -/
structure Db where
  sessions : List SessionRow
  chats : List ChatRow
  chats_fts : List FtsRow
  nextSessionId : Nat
  nextChatId : Nat
  deriving Repr, DecidableEq

/-- The empty database, as created by the schema statements. -/
def Db.empty : Db :=
  { sessions := [], chats := [], chats_fts := [], nextSessionId := 1, nextChatId := 1 }

/-- The fields of the `POST /chat` request body the server destructures:
`const { query, model, temperature, stream, sessionUid = "", chatUid = "",
system = null } = req.body`.  `sessionUid` and `chatUid` are given here
with their defaults already applied (absent ↦ `""`).  `restMeta` stands for
`JSON.stringify(rest)` computed in `saveChatMessage` from the remaining
request fields; it is opaque to every property proved here. -/
structure ChatRequest where
  query : String
  model : String
  temperature : Option ℚ
  stream : Bool
  sessionUid : String
  chatUid : String
  system : Option String
  restMeta : String
  deriving Repr, DecidableEq

/-- A `message` object of an upstream response: `{content, role}`. -/
structure BotMessage where
  content : String
  role : String
  deriving Repr, DecidableEq

/-- The shape of the `response` argument of `saveChatMessage`:
`has(response, ["choices", 0, "message", "content"])` distinguishes the
OpenAI-style `choices[0].message` path from the Ollama-style `message`
path.  `choices = some m` models a response where that path exists with
message `m`; `message` models the `message` key. -/
structure BotResponse where
  choices : Option BotMessage
  message : Option BotMessage
  deriving Repr, DecidableEq

/-- `const reply = hasChoices ? get(response, ["choices",0,"message","content"])
: get(response, "message.content", "")`. -/
def BotResponse.reply (r : BotResponse) : String :=
  match r.choices with
  | some m => m.content
  | none => match r.message with
            | some m => m.content
            | none => ""

/-- `const role = hasChoices ? get(response, ["choices",0,"message","role"])
: get(response, "message.role", "assistant")`. -/
def BotResponse.role (r : BotResponse) : String :=
  match r.choices with
  | some m => m.role
  | none => match r.message with
            | some m => m.role
            | none => "assistant"

/-- Result of `let session = sessionUid ? db.prepare("SELECT * FROM sessions
WHERE uid = ?").get(sessionUid) : {}`.  In JS the variable holds the empty
object `{}` when `sessionUid` is falsy, `undefined` when the SELECT finds
nothing, or the row; only `undefined` is falsy, so `if (!session)` takes the
create branch exactly in the `notFound` case. -/
inductive SessionLookup where
  | emptyObj
  | notFound
  | found (row : SessionRow)
  deriving Repr, DecidableEq

/-- The session lookup at the top of `saveChatMessage`.  `SELECT ... WHERE
uid = ?` with `.get` returns the first matching row. -/
def lookupSession (db : Db) (sessionUid : String) : SessionLookup :=
  if sessionUid = "" then .emptyObj
  else match db.sessions.find? (fun r => r.uid = sessionUid) with
       | some r => .found r
       | none => .notFound

/-- `UPDATE sessions SET updatedAt = ? WHERE uid = ?` — bumps `updatedAt` on
every row whose `uid` matches. -/
def updateSessionsUpdatedAt (sessions : List SessionRow) (uid now : String) :
    List SessionRow :=
  sessions.map (fun r => if r.uid = uid then { r with updatedAt := now } else r)

/-- The tail of `saveChatMessage`: insert the chat row
(`INSERT INTO chats (uid, sessionId, query, reply, role, createdAt, jsonMeta)`)
with `uid = chatUid ? chatUid : slugid.nice()`, then insert the FTS row
(`INSERT INTO chats_fts (id, query, reply)`) keyed by the `lastInsertRowid`
of the chat insert.  `freshChatUid` stands for the `slugid.nice()` result. -/
def insertChatAndFts (db : Db) (sid : Option Int) (req : ChatRequest)
    (reply role now freshChatUid : String) : Db :=
  let newChat : ChatRow :=
    { id := db.nextChatId
      uid := if req.chatUid = "" then freshChatUid else req.chatUid
      sessionId := sid
      query := req.query
      reply := reply
      role := role
      createdAt := now
      jsonMeta := req.restMeta }
  { db with
      chats := db.chats ++ [newChat]
      chats_fts := db.chats_fts ++ [{ id := db.nextChatId, query := req.query, reply := reply }]
      nextChatId := db.nextChatId + 1 }

/-- `saveChatMessage({request, response})` from `server.ts`.  `now` is
`new Date().toISOString()`; `freshSessionUid` and `freshChatUid` are the
`slugid.nice()` results used when a new session row, resp. chat row,
needs a uid.  The new-session insert supplies only
(uid, name, model, createdAt, updatedAt), so the schema defaults apply to
the other columns (temperature 0.7, isArchive 0, NULL elsewhere). -/
def saveChatMessage (now freshSessionUid freshChatUid : String)
    (req : ChatRequest) (resp : BotResponse) (db : Db) : Db :=
  match lookupSession db req.sessionUid with
  | .notFound =>
      let newS : SessionRow :=
        { id := db.nextSessionId
          uid := freshSessionUid
          name := "Chat on " ++ now
          model := req.model
          temperature := some (7/10 : ℚ)
          createdAt := now
          updatedAt := now
          modelFileId := none
          templateId := none
          isArchive := 0
          jsonMeta := none }
      let db1 := { db with
                    sessions := db.sessions ++ [newS]
                    nextSessionId := db.nextSessionId + 1 }
      insertChatAndFts db1 (some (newS.id : Int)) req resp.reply resp.role now freshChatUid
  | .emptyObj =>
      -- `{}` is truthy, so the else branch runs the UPDATE (matching no row,
      -- since sessionUid = "" here) and `get(session, "id", null)` is null.
      let db1 := { db with sessions := updateSessionsUpdatedAt db.sessions req.sessionUid now }
      insertChatAndFts db1 none req resp.reply resp.role now freshChatUid
  | .found r =>
      let db1 := { db with sessions := updateSessionsUpdatedAt db.sessions req.sessionUid now }
      insertChatAndFts db1 (some (r.id : Int)) req resp.reply resp.role now freshChatUid

/-! ### The streaming relay (`streamResponse` inside `POST /chat`) -/

/-- A parsed upstream stream line (one newline-delimited JSON object).
`has(data, ["choices", 0, "delta", "content"])` selects the OpenAI-style
delta; otherwise the loop reads `data.message.content`. -/
structure ChunkData where
  choicesDelta : Option String
  messageContent : String
  deriving Repr, DecidableEq

/-- One nonempty line of an upstream chunk after
`chunk.split("\n").filter((line) => line.trim() !== "")`.  `ok d` is a line
that is well-formed JSON parsing to `d`; `malformed` is a line on which
`JSON.parse` throws. -/
inductive StreamLine where
  | ok (data : ChunkData)
  | malformed
  deriving Repr, DecidableEq

/-- One upstream chunk = its list of nonempty lines. -/
abbrev Chunk := List StreamLine

/-- `.map((line) => JSON.parse(line))` on the lines of a chunk: yields the parsed
objects, or throws (`.error`) at the first malformed line. -/
def parseChunk : Chunk → Except Unit (List ChunkData)
  | [] => .ok []
  | .ok d :: rest => (parseChunk rest).map (fun ds => d :: ds)
  | .malformed :: _ => .error ()

/-- The content fragment one parsed line contributes to `fullContent`:
`hasChoices ? data.choices[0].delta.content : data.message.content`. -/
def lineContent (d : ChunkData) : String :=
  match d.choicesDelta with
  | some s => s
  | none => d.messageContent

/-- The concatenated content fragments of one parsed chunk, in line order —
the per-line `fullContent +=` of the source loop. -/
def chunkContents : List ChunkData → String
  | [] => ""
  | d :: rest => lineContent d ++ chunkContents rest

/-- The concatenated `content` fields of the lines of one forwarded chunk
(a malformed line has no `content` field and contributes nothing). -/
def chunkLinesContents : Chunk → String
  | [] => ""
  | .ok d :: rest => lineContent d ++ chunkLinesContents rest
  | .malformed :: rest => chunkLinesContents rest

/-- The concatenation of the `content` fields of every chunk in a forwarded
stream, in order. -/
def forwardedContents : List Chunk → String
  | [] => ""
  | c :: rest => chunkLinesContents c ++ forwardedContents rest

/-- The concatenated contents of a list of parsed chunks. -/
def streamContents : List (List ChunkData) → String
  | [] => ""
  | ds :: rest => chunkContents ds ++ streamContents rest

/-- Outcome of the `streamResponse` read loop.  `completed` carries the
chunks written to the client (`res.write(chunk)`), the accumulated
`fullContent`, and the final `_streamResult`; on `crashed` the `JSON.parse`
exception rejects the (un-awaited) async function, so the chunk being
processed is never written, `res.end()` never runs and `saveChatMessage` is
never called. -/
inductive StreamOutcome where
  | completed (forwarded : List Chunk) (fullContent : String) (lastResult : Option ChunkData)
  | crashed (forwarded : List Chunk)
  deriving Repr, DecidableEq

/-- The chunks that were written to the client in either outcome. -/
def StreamOutcome.forwarded : StreamOutcome → List Chunk
  | .completed f _ _ => f
  | .crashed f => f

/-- The accumulated `fullContent` handed to `saveChatMessage`, when the loop
reached `done` (and `none` when it crashed before that). -/
def StreamOutcome.finalContent : StreamOutcome → Option String
  | .completed _ c _ => some c
  | .crashed _ => none

/-- The body of the `while (true)` loop of `streamResponse`, one iteration
per upstream chunk: parse all lines (`JSON.parse` may throw), set
`_streamResult = last(chunkData)`, extend `fullContent`, then
`res.write(chunk)`.  When `reader.read()` reports `done`, the accumulated
state is returned. -/
def streamLoop : List Chunk → String → Option ChunkData → List Chunk → StreamOutcome
  | [], fullContent, lastResult, forwarded => .completed forwarded fullContent lastResult
  | c :: rest, fullContent, _lastResult, forwarded =>
      match parseChunk c with
      | .error _ => .crashed forwarded
      | .ok ds => streamLoop rest (fullContent ++ chunkContents ds) ds.getLast? (forwarded ++ [c])

/-- `streamResponse` run on the whole upstream stream, from the initial
state (`fullContent = ""`, `_streamResult = {}`, nothing written yet).
`lastResult` is `none` initially: `{}` and `undefined` spread identically
into the response object built at `done`. -/
def streamResponse (chunks : List Chunk) : StreamOutcome :=
  streamLoop chunks "" none []

/-- The `response` object `streamResponse` hands to `saveChatMessage` at
`done`: `{..._streamResult, message: null, choices: [{message: {content:
fullContent, role: "assistant"}}]}` — `message` and `choices` are
overwritten whatever `_streamResult` held. -/
def streamFinalResponse (fullContent : String) : BotResponse :=
  { choices := some { content := fullContent, role := "assistant" }, message := none }

/-- The streaming branch of `POST /chat` end to end: run the read loop,
and call `saveChatMessage` exactly when the loop reached `done`.
`clientAborted` records whether the client aborted its HTTP request before
the upstream stream completed; the source loop registers no listener on the
client socket and consults no abort signal, so the parameter is unused
(writes to a closed response are dropped by Node without throwing). -/
def streamRelay (clientAborted : Bool) (req : ChatRequest) (chunks : List Chunk)
    (now freshSessionUid freshChatUid : String) (db : Db) : StreamOutcome × Db :=
  let _ := clientAborted
  match streamResponse chunks with
  | .completed f full l =>
      (.completed f full l,
        saveChatMessage now freshSessionUid freshChatUid req (streamFinalResponse full) db)
  | .crashed f => (.crashed f, db)

/-! ### Non-streaming branch of `POST /chat` -/

/-- The correlation fields of the non-streaming JSON response:
`res.json({ ...result, sessionUid, chatUid })`, where `sessionUid` and
`chatUid` are the (defaulted) request fields.  The spread upstream `result`
carries no such keys, so these two values are what the caller sees. -/
structure ChatEcho where
  sessionUid : String
  chatUid : String
  deriving Repr, DecidableEq

/-- The non-streaming branch: `const result = await response.json();
saveChatMessage({request: req.body, response: result});
res.json({...result, sessionUid, chatUid})`. -/
def nonStreamingChat (req : ChatRequest) (upstream : BotResponse)
    (now freshSessionUid freshChatUid : String) (db : Db) : ChatEcho × Db :=
  (⟨req.sessionUid, req.chatUid⟩,
    saveChatMessage now freshSessionUid freshChatUid req upstream db)

/-- `temperature: temperature || 0.7` in the body forwarded to
`/api/chat` — JS `||` replaces any falsy value (absent, `null`, `0`) by the
default. -/
def forwardedTemperature (temperature : Option ℚ) : ℚ :=
  match temperature with
  | none => 7/10
  | some t => if t = 0 then 7/10 else t

/-- The JSON body `POST /chat` forwards to the inference endpoint
(`fetch(OLLAMA_API_URL + "/api/chat", {body: JSON.stringify({model,
messages: [{role: "user", content: query}], temperature: temperature || 0.7,
stream: stream || false, system})})`).  `userContent` is the `content` of
the single user message. -/
structure OllamaChatBody where
  model : String
  userContent : String
  temperature : ℚ
  stream : Bool
  system : Option String
  deriving Repr, DecidableEq

/-- Builds the forwarded body from the destructured request fields. -/
def buildChatBody (req : ChatRequest) : OllamaChatBody :=
  { model := req.model
    userContent := req.query
    temperature := forwardedTemperature req.temperature
    stream := req.stream
    system := req.system }

/-! ### `/session` route handlers (`routes/chat-session.ts`) -/

/-- Body of `PUT /session/:sessionUid` as destructured by the handler:
`const { name, model, temperature, modelFileId, templateId, isArchive,
jsonMeta } = req.body` — absent fields are `undefined` (`none`).
`modelFileId`/`templateId` are documented as integers, `isArchive` as an
integer flag. -/
structure PutSessionBody where
  name : Option String
  model : Option String
  temperature : Option ℚ
  modelFileId : Option Int
  templateId : Option Int
  isArchive : Option Int
  jsonMeta : Option String
  deriving Repr, DecidableEq

/-- JS truthiness of an optional string (`undefined` and `""` are falsy). -/
def truthyStr : Option String → Bool
  | none => false
  | some s => s ≠ ""

/-- JS truthiness of an optional number (`undefined` and `0` are falsy). -/
def truthyInt : Option Int → Bool
  | none => false
  | some n => n ≠ 0

/-- The `updateFields`/`updateValues` accumulation of the PUT handler, as
the list of column mutations it would apply, in source order:
`name`, `model`, `jsonMeta` (and implicitly `modelFileId`, `templateId`)
are pushed when truthy; `temperature` and `isArchive` when
`!== undefined`. -/
def putUpdateFields (b : PutSessionBody) : List (SessionRow → SessionRow) :=
  (if truthyStr b.name then [fun s => { s with name := b.name.getD "" }] else []) ++
  (if truthyStr b.model then [fun s => { s with model := b.model.getD "" }] else []) ++
  (if b.temperature.isSome then [fun s => { s with temperature := b.temperature }] else []) ++
  (if truthyInt b.modelFileId then
    [fun s => { s with modelFileId := b.modelFileId.map toString }] else []) ++
  (if truthyInt b.templateId then
    [fun s => { s with templateId := b.templateId.map toString }] else []) ++
  (if b.isArchive.isSome then [fun s => { s with isArchive := b.isArchive.getD 0 }] else []) ++
  (if truthyStr b.jsonMeta then [fun s => { s with jsonMeta := b.jsonMeta }] else [])

/-- `PUT /session/:sessionUid`: look the session up by uid (404 when
missing), collect the supplied fields (400 when none), otherwise run
`UPDATE sessions SET <fields>, updatedAt = ? WHERE id = ?` and answer 200
with the updated row (the row exists, so `result.changes > 0`).
Returns the HTTP status and the resulting database. -/
def putSessionHandler (sessionUid : String) (b : PutSessionBody) (now : String)
    (db : Db) : Nat × Db :=
  match db.sessions.find? (fun r => r.uid = sessionUid) with
  | none => (404, db)
  | some s =>
      let fields := putUpdateFields b
      if fields.isEmpty then (400, db)
      else
        let apply := fun (r : SessionRow) =>
          { (fields.foldl (fun acc f => f acc) r) with updatedAt := now }
        (200, { db with
                 sessions := db.sessions.map (fun r => if r.id = s.id then apply r else r) })

/-- The numeric value of a decimal digit character, if it is one. -/
def digitVal (c : Char) : Option Nat :=
  if 48 ≤ c.toNat ∧ c.toNat ≤ 57 then some (c.toNat - 48) else none

/-- Reads a nonempty all-digit character list as a natural number. -/
def digitsVal (cs : List Char) : Option Nat :=
  match cs with
  | [] => none
  | _ =>
      cs.foldl
        (fun acc c =>
          match acc, digitVal c with
          | some n, some d => some (n * 10 + d)
          | _, _ => none)
        (some 0)

/-- SQLite numeric-affinity conversion of a TEXT value compared against an
INTEGER column: the text converts when it is a well-formed (optionally
negated) decimal integer literal, otherwise it keeps the TEXT storage class
(SQLite also accepts real literals and surrounding whitespace; those never
arise for the slugid uids at issue here). -/
def sqliteTextToInt (s : String) : Option Int :=
  match s.data with
  | '-' :: rest => (digitsVal rest).map (fun n => -(n : Int))
  | cs => (digitsVal cs).map (fun n => (n : Int))

/-- SQLite comparison of an INTEGER-affinity column value against a bound
TEXT parameter: the text is converted under numeric affinity when
possible, otherwise the two values have different storage classes and
compare unequal; a NULL column compares unequal to everything. -/
def intColEqTextParam (v : Option Int) (s : String) : Bool :=
  match v, sqliteTextToInt s with
  | some n, some m => n = m
  | _, _ => false

/-- `DELETE /session/:sessionUid`: the handler runs
`DELETE FROM chats WHERE sessionId = ?` and
`DELETE FROM sessions WHERE id = ?`, binding the **uid string** from the
URL to both — comparing it against the INTEGER `sessionId` / `id`
columns. -/
def deleteSessionHandler (sessionUid : String) (db : Db) : Db :=
  { db with
      chats := db.chats.filter (fun c => ¬ intColEqTextParam c.sessionId sessionUid)
      sessions := db.sessions.filter
        (fun r => ¬ intColEqTextParam (some (r.id : Int)) sessionUid) }

/-- `POST /session/:sessionUid/chat/delete`: 400 on a missing/empty
`chatIds` array; destructuring `db...get(sessionUid) as any` throws on an
unknown uid, landing in the catch (500); otherwise, for each chat id, run
`DELETE FROM chats WHERE sessionId = ? AND uid = ?`.  The handler issues no
statement against `chats_fts`. -/
def deleteChatsHandler (sessionUid : String) (chatIds : List String) (db : Db) :
    Nat × Db :=
  if chatIds.isEmpty then (400, db)
  else match db.sessions.find? (fun r => r.uid = sessionUid) with
       | none => (500, db)
       | some s =>
           if (s.id : Int) ≠ 0 then
             (200, { db with
                      chats := db.chats.filter
                        (fun c => ¬ (c.sessionId = some (s.id : Int) ∧ c.uid ∈ chatIds)) })
           else (200, db)

/-! ### Helper lemmas -/

theorem string_empty_append (s : String) : "" ++ s = s := by
  cases s
  rfl

theorem string_append_empty (s : String) : s ++ "" = s := by
  cases s
  exact congrArg String.mk (List.append_nil _)

theorem string_append_assoc (a b c : String) : a ++ b ++ c = a ++ (b ++ c) := by
  cases a
  cases b
  cases c
  exact congrArg String.mk (List.append_assoc _ _ _)

theorem parseChunk_map_ok (ds : List ChunkData) :
    parseChunk (ds.map StreamLine.ok) = Except.ok ds := by
  induction ds with
  | nil => rfl
  | cons d rest ih => simp [parseChunk, ih, Except.map]

theorem chunkLinesContents_map_ok (ds : List ChunkData) :
    chunkLinesContents (ds.map StreamLine.ok) = chunkContents ds := by
  induction ds with
  | nil => rfl
  | cons d rest ih => simp [chunkLinesContents, chunkContents, ih]

theorem forwardedContents_map_ok (cs : List (List ChunkData)) :
    forwardedContents (cs.map (fun ds => ds.map StreamLine.ok)) = streamContents cs := by
  induction cs with
  | nil => rfl
  | cons c rest ih => simp [forwardedContents, streamContents, ih, chunkLinesContents_map_ok]

theorem streamLoop_allOk (cs : List (List ChunkData)) :
    ∀ (acc : String) (l : Option ChunkData) (fwd : List Chunk),
      ∃ l2, streamLoop (cs.map (fun ds => ds.map StreamLine.ok)) acc l fwd =
        .completed (fwd ++ cs.map (fun ds => ds.map StreamLine.ok))
          (acc ++ streamContents cs) l2 := by
  induction cs with
  | nil =>
      intro acc l fwd
      exact ⟨l, by simp [streamLoop, streamContents, string_append_empty]⟩
  | cons c rest ih =>
      intro acc l fwd
      obtain ⟨l2, h⟩ := ih (acc ++ chunkContents c) c.getLast?
        (fwd ++ [c.map StreamLine.ok])
      refine ⟨l2, ?_⟩
      simp only [List.map_cons, streamLoop, parseChunk_map_ok, streamContents]
      rw [h, string_append_assoc]
      simp

theorem streamResponse_allOk (cs : List (List ChunkData)) :
    ∃ l2, streamResponse (cs.map (fun ds => ds.map StreamLine.ok)) =
      .completed (cs.map (fun ds => ds.map StreamLine.ok)) (streamContents cs) l2 := by
  obtain ⟨l2, h⟩ := streamLoop_allOk cs "" none []
  refine ⟨l2, ?_⟩
  unfold streamResponse
  rw [h, string_empty_append]
  simp

theorem streamLoop_crash (post : List Chunk) (bad : Chunk)
    (hbad : parseChunk bad = Except.error ()) :
    ∀ (pre : List Chunk), (∀ c ∈ pre, ∃ ds, parseChunk c = Except.ok ds) →
      ∀ (acc : String) (l : Option ChunkData) (fwd : List Chunk),
        streamLoop (pre ++ bad :: post) acc l fwd = .crashed (fwd ++ pre) := by
  intro pre
  induction pre with
  | nil =>
      intro _ acc l fwd
      simp [streamLoop, hbad]
  | cons c rest ih =>
      intro hok acc l fwd
      obtain ⟨ds, hds⟩ := hok c (List.mem_cons_self _ _)
      have hrest : ∀ c2 ∈ rest, ∃ ds2, parseChunk c2 = Except.ok ds2 :=
        fun c2 hc2 => hok c2 (List.mem_cons_of_mem _ hc2)
      simp only [List.cons_append, streamLoop, hds, List.append_eq]
      rw [ih hrest]
      simp

theorem saveChatMessage_chats_spec (now fsu fcu : String) (req : ChatRequest)
    (resp : BotResponse) (db : Db) :
    ∃ sid,
      (saveChatMessage now fsu fcu req resp db).chats =
        db.chats ++ [⟨db.nextChatId, if req.chatUid = "" then fcu else req.chatUid, sid,
                      req.query, resp.reply, resp.role, now, req.restMeta⟩] ∧
      (saveChatMessage now fsu fcu req resp db).chats_fts =
        db.chats_fts ++ [⟨db.nextChatId, req.query, resp.reply⟩] := by
  unfold saveChatMessage
  rcases h : lookupSession db req.sessionUid with _ | _ | r
  · exact ⟨none, rfl, rfl⟩
  · exact ⟨some (db.nextSessionId : Int), rfl, rfl⟩
  · exact ⟨some (r.id : Int), rfl, rfl⟩

theorem lookupSession_found (db : Db) (uid : String) (r0 : SessionRow)
    (hu : uid ≠ "") (hfind : db.sessions.find? (fun r => r.uid = uid) = some r0) :
    lookupSession db uid = .found r0 := by
  unfold lookupSession
  rw [if_neg hu, hfind]

theorem forall2_map_self {α : Type _} (f : α → α) (P : α → α → Prop)
    (h : ∀ a, P a (f a)) : ∀ l : List α, List.Forall₂ P l (l.map f)
  | [] => .nil
  | a :: l => .cons (h a) (forall2_map_self f P h l)

/-! ### Claim theorems -/

/-- C1: the claim says a client abort before stream completion prevents
`saveChatMessage` from running, so no Turn row exists for that turnId.
The `streamResponse` loop registers no abort listener and consults no
signal, so the run is identical whether or not the client aborted: here the
client aborts (`clientAborted = true`) on a request with turnId `"t1"`, the
upstream stream completes, and a Turn row with uid `"t1"` and the full
reply `"Hi"` is persisted anyway. -/
theorem streamRelay_abort_still_records_turn :
    ((streamRelay true ⟨"Hello", "llama3.2", none, true, "", "t1", none, "m0"⟩
        [[StreamLine.ok ⟨none, "Hi"⟩]] "t0" "s1" "c1" Db.empty).2).chats.map
      (fun c => (c.uid, c.reply)) = [("t1", "Hi")] := by
  rfl

/-- C2: for a streaming request that completes without client abort and all
of whose upstream lines are well-formed JSON, exactly one chat row is
appended and its persisted `reply` equals the concatenation of the
`content` fields of every chunk forwarded to the client (which is every
upstream chunk). -/
theorem stream_roundtrip_reply_eq_forwarded_contents
    (req : ChatRequest) (now fsu fcu : String) (db : Db)
    (chunks : List (List ChunkData)) :
    ∃ r : ChatRow,
      ((streamRelay false req (chunks.map (fun ds => ds.map StreamLine.ok))
          now fsu fcu db).2).chats = db.chats ++ [r] ∧
      r.reply =
        forwardedContents
          ((streamRelay false req (chunks.map (fun ds => ds.map StreamLine.ok))
              now fsu fcu db).1).forwarded ∧
      ((streamRelay false req (chunks.map (fun ds => ds.map StreamLine.ok))
          now fsu fcu db).1).forwarded =
        chunks.map (fun ds => ds.map StreamLine.ok) := by
  obtain ⟨l2, hresp⟩ := streamResponse_allOk chunks
  have hrel : streamRelay false req (chunks.map (fun ds => ds.map StreamLine.ok))
      now fsu fcu db =
      (.completed (chunks.map (fun ds => ds.map StreamLine.ok)) (streamContents chunks) l2,
       saveChatMessage now fsu fcu req (streamFinalResponse (streamContents chunks)) db) := by
    unfold streamRelay
    rw [hresp]
  obtain ⟨sid, hc, _⟩ := saveChatMessage_chats_spec now fsu fcu req
    (streamFinalResponse (streamContents chunks)) db
  refine ⟨⟨db.nextChatId, if req.chatUid = "" then fcu else req.chatUid, sid, req.query,
      (streamFinalResponse (streamContents chunks)).reply,
      (streamFinalResponse (streamContents chunks)).role, now, req.restMeta⟩, ?_, ?_, ?_⟩
  · rw [hrel]
    exact hc
  · rw [hrel]
    simp only [StreamOutcome.forwarded, forwardedContents_map_ok]
    rfl
  · rw [hrel]
    rfl

/-- C3: the claim says a session-less successful chat creates exactly one
new Session row referenced by the Turn.  In the code an empty `sessionUid`
makes `session = {}` which is truthy, so the create branch is skipped:
starting from the empty database, no session row exists afterwards and the
single inserted Turn has `sessionId = NULL`. -/
theorem sessionless_chat_creates_no_session :
    (saveChatMessage "t0" "s1" "c1" ⟨"Hello", "llama3.2", none, false, "", "", none, "m0"⟩
        ⟨none, some ⟨"Hi there!", "assistant"⟩⟩ Db.empty).sessions = [] ∧
    (saveChatMessage "t0" "s1" "c1" ⟨"Hello", "llama3.2", none, false, "", "", none, "m0"⟩
        ⟨none, some ⟨"Hi there!", "assistant"⟩⟩ Db.empty).chats.map
      (fun c => (c.uid, c.sessionId)) = [("c1", none)] :=
  ⟨rfl, rfl⟩

/-- C4 counterexample: a malformed line mid-stream (chunk 2 is
`ok "B", malformed, ok "C"`, between well-formed chunks `ok "A"` and
`ok "D"`).  The claim says the well-formed lines before and after are still
forwarded and accumulated and the reply is persisted without the malformed
fragment; in fact `JSON.parse` throws, only chunk 1 was forwarded, the
later well-formed lines are never forwarded, and nothing at all is
persisted. -/
theorem malformed_line_counterexample :
    (streamRelay false ⟨"q", "m", none, true, "", "", none, "m0"⟩
        [[StreamLine.ok ⟨none, "A"⟩],
         [StreamLine.ok ⟨none, "B"⟩, StreamLine.malformed, StreamLine.ok ⟨none, "C"⟩],
         [StreamLine.ok ⟨none, "D"⟩]] "t0" "s1" "c1" Db.empty).1.forwarded
      = [[StreamLine.ok ⟨none, "A"⟩]] ∧
    (streamRelay false ⟨"q", "m", none, true, "", "", none, "m0"⟩
        [[StreamLine.ok ⟨none, "A"⟩],
         [StreamLine.ok ⟨none, "B"⟩, StreamLine.malformed, StreamLine.ok ⟨none, "C"⟩],
         [StreamLine.ok ⟨none, "D"⟩]] "t0" "s1" "c1" Db.empty).2 = Db.empty ∧
    ¬ (((streamRelay false ⟨"q", "m", none, true, "", "", none, "m0"⟩
        [[StreamLine.ok ⟨none, "A"⟩],
         [StreamLine.ok ⟨none, "B"⟩, StreamLine.malformed, StreamLine.ok ⟨none, "C"⟩],
         [StreamLine.ok ⟨none, "D"⟩]] "t0" "s1" "c1" Db.empty).2).chats.map
        (fun c => c.reply) = ["ABCD"]) := by
  refine ⟨rfl, rfl, ?_⟩
  decide

/-- C4 amended: a malformed upstream line is not dropped-and-skipped; the
`JSON.parse` exception rejects the un-awaited async loop.  Chunks strictly
before the chunk containing the malformed line are forwarded and
accumulated; the chunk containing it and everything after are not
forwarded, `res.end()` never runs, and `saveChatMessage` is never called,
so the database is unchanged. -/
theorem malformed_line_aborts_stream (req : ChatRequest) (now fsu fcu : String)
    (db : Db) (pre : List Chunk) (bad : Chunk) (post : List Chunk)
    (hpre : ∀ c ∈ pre, ∃ ds, parseChunk c = Except.ok ds)
    (hbad : parseChunk bad = Except.error ()) :
    streamRelay false req (pre ++ bad :: post) now fsu fcu db = (.crashed pre, db) := by
  have h := streamLoop_crash post bad hbad pre hpre "" none []
  unfold streamRelay streamResponse
  rw [h]
  simp

/-- C4 witness: the amended theorem applied to the concrete stream
`[ok "A"], [malformed], [ok "B"]`. -/
theorem malformed_line_aborts_stream_witness :
    (∀ c ∈ [[StreamLine.ok (⟨none, "A"⟩ : ChunkData)]], ∃ ds, parseChunk c = Except.ok ds) ∧
    parseChunk [StreamLine.malformed] = Except.error () ∧
    streamRelay false ⟨"q", "m", none, true, "", "", none, "m0"⟩
        ([[StreamLine.ok ⟨none, "A"⟩]] ++ [StreamLine.malformed] :: [[StreamLine.ok ⟨none, "B"⟩]])
        "t0" "s1" "c1" Db.empty
      = (.crashed [[StreamLine.ok ⟨none, "A"⟩]], Db.empty) := by
  have hpre : ∀ c ∈ [[StreamLine.ok (⟨none, "A"⟩ : ChunkData)]],
      ∃ ds, parseChunk c = Except.ok ds := by
    intro c hc
    simp only [List.mem_singleton] at hc
    subst hc
    exact ⟨[⟨none, "A"⟩], rfl⟩
  exact ⟨hpre, rfl,
    malformed_line_aborts_stream ⟨"q", "m", none, true, "", "", none, "m0"⟩
      "t0" "s1" "c1" Db.empty _ _ _ hpre rfl⟩

/-- C5 counterexample: a database with one session (uid `"s"`, id 1), one
Turn (rowid 1, uid `"c"`) and its index row (id 1).  Deleting the Turn via
the chat-delete handler removes the chats row but the `chats_fts` row with
id 1 is still there — the claim that the index entry is removed within the
same logical operation is false. -/
theorem chat_delete_leaves_fts_counterexample :
    ((deleteChatsHandler "s" ["c"]
        ⟨[⟨1, "s", "n", "m", none, "t0", "t0", none, none, 0, none⟩],
         [⟨1, "c", some 1, "q", "r", "assistant", "t0", "m0"⟩],
         [⟨1, "q", "r"⟩], 2, 2⟩).2).chats.filter (fun c => c.id = 1) = [] ∧
    ¬ (((deleteChatsHandler "s" ["c"]
        ⟨[⟨1, "s", "n", "m", none, "t0", "t0", none, none, 0, none⟩],
         [⟨1, "c", some 1, "q", "r", "assistant", "t0", "m0"⟩],
         [⟨1, "q", "r"⟩], 2, 2⟩).2).chats_fts.filter (fun f => f.id = 1) = []) := by
  refine ⟨?_, ?_⟩ <;> decide

/-- C5 amended: the insert half of the lockstep invariant holds — recording
a Turn appends exactly one chats row and one `chats_fts` row keyed by the
same rowid, carrying the same query and reply, in the same
`saveChatMessage` call — but the chat-delete handler issues no statement
against `chats_fts`, so deleting a Turn leaves its index entry in place. -/
theorem fts_lockstep_insert_only_delete_orphans :
    (∀ (now fsu fcu : String) (req : ChatRequest) (resp : BotResponse) (db : Db),
      ∃ (r : ChatRow) (f : FtsRow),
        (saveChatMessage now fsu fcu req resp db).chats = db.chats ++ [r] ∧
        (saveChatMessage now fsu fcu req resp db).chats_fts = db.chats_fts ++ [f] ∧
        f.id = r.id ∧ f.query = r.query ∧ f.reply = r.reply) ∧
    (∀ (sessionUid : String) (chatIds : List String) (db : Db),
      ((deleteChatsHandler sessionUid chatIds db).2).chats_fts = db.chats_fts) := by
  constructor
  · intro now fsu fcu req resp db
    obtain ⟨sid, hc, hf⟩ := saveChatMessage_chats_spec now fsu fcu req resp db
    exact ⟨_, _, hc, hf, rfl, rfl, rfl⟩
  · intro u ids db
    unfold deleteChatsHandler
    split
    · rfl
    · rcases hfind : db.sessions.find? (fun r => r.uid = u) with _ | s
      · simp only [hfind]
      · simp only [hfind]
        split <;> rfl

/-- C6: the claim says `DELETE /session/:sessionUid` removes the Session
row and cascades to its Turns.  The handler binds the uid **string** to
`WHERE sessionId = ?` and `WHERE id = ?`, both INTEGER columns, so for a
real slugid uid nothing matches: with a session (id 1, uid `"abc"`) and a
Turn referencing it, the delete leaves the database unchanged. -/
theorem delete_session_removes_nothing :
    deleteSessionHandler "abc"
        ⟨[⟨1, "abc", "n", "m", none, "t0", "t0", none, none, 0, none⟩],
         [⟨1, "c", some 1, "q", "r", "assistant", "t0", "m0"⟩],
         [⟨1, "q", "r"⟩], 2, 2⟩
      = ⟨[⟨1, "abc", "n", "m", none, "t0", "t0", none, none, 0, none⟩],
         [⟨1, "c", some 1, "q", "r", "assistant", "t0", "m0"⟩],
         [⟨1, "q", "r"⟩], 2, 2⟩ := by
  decide

/-- C7 counterexample: a non-streaming request with `chatUid` omitted
(defaulted to `""`).  The claim says the response then contains a newly
minted identifier; in fact the response echoes the empty string while the
freshly minted uid `"f1"` goes only into the stored Turn row. -/
theorem omitted_chatUid_echo_counterexample :
    (nonStreamingChat ⟨"Hello", "llama3.2", none, false, "", "", none, "m0"⟩
        ⟨none, some ⟨"Hi", "assistant"⟩⟩ "t0" "s1" "f1" Db.empty).1.chatUid = "" ∧
    ((nonStreamingChat ⟨"Hello", "llama3.2", none, false, "", "", none, "m0"⟩
        ⟨none, some ⟨"Hi", "assistant"⟩⟩ "t0" "s1" "f1" Db.empty).2).chats.map
      (fun c => c.uid) = ["f1"] ∧
    ¬ ((nonStreamingChat ⟨"Hello", "llama3.2", none, false, "", "", none, "m0"⟩
        ⟨none, some ⟨"Hi", "assistant"⟩⟩ "t0" "s1" "f1" Db.empty).1.chatUid = "f1") := by
  refine ⟨rfl, rfl, ?_⟩
  decide

/-- C7 amended: the echoed `chatUid` always equals the (defaulted) value
the caller supplied; when the caller omitted it (empty string), the
response carries the empty string while a newly minted identifier is
assigned to the stored Turn row only. -/
theorem chatUid_echo_amended (req : ChatRequest) (upstream : BotResponse)
    (now fsu fcu : String) (db : Db) :
    (nonStreamingChat req upstream now fsu fcu db).1.chatUid = req.chatUid ∧
    (req.chatUid = "" →
      ∃ r : ChatRow,
        ((nonStreamingChat req upstream now fsu fcu db).2).chats = db.chats ++ [r] ∧
        r.uid = fcu) := by
  constructor
  · rfl
  · intro h
    obtain ⟨sid, hc, _⟩ := saveChatMessage_chats_spec now fsu fcu req upstream db
    refine ⟨_, hc, ?_⟩
    simp [h]

/-- C7 witness: the amended theorem at a concrete omitted-`chatUid`
request. -/
theorem chatUid_echo_amended_witness :
    (nonStreamingChat ⟨"Hello", "llama3.2", none, false, "", "", none, "m0"⟩
        ⟨none, some ⟨"Hi", "assistant"⟩⟩ "t0" "s1" "f1" Db.empty).1.chatUid = "" ∧
    ∃ r : ChatRow,
      ((nonStreamingChat ⟨"Hello", "llama3.2", none, false, "", "", none, "m0"⟩
          ⟨none, some ⟨"Hi", "assistant"⟩⟩ "t0" "s1" "f1" Db.empty).2).chats =
        Db.empty.chats ++ [r] ∧ r.uid = "f1" :=
  ⟨(chatUid_echo_amended ⟨"Hello", "llama3.2", none, false, "", "", none, "m0"⟩
      ⟨none, some ⟨"Hi", "assistant"⟩⟩ "t0" "s1" "f1" Db.empty).1,
   (chatUid_echo_amended ⟨"Hello", "llama3.2", none, false, "", "", none, "m0"⟩
      ⟨none, some ⟨"Hi", "assistant"⟩⟩ "t0" "s1" "f1" Db.empty).2 rfl⟩

/-- C8: when the request carries a `sessionUid` that resolves to an
existing Session, recording a chat leaves every session row with the same
id, uid, name, model, temperature, createdAt, modelFileId, templateId,
isArchive and jsonMeta, and touches `updatedAt` only on rows whose uid is
the requested one. -/
theorem save_chat_frame_sessions (now fsu fcu : String) (req : ChatRequest)
    (resp : BotResponse) (db : Db) (r0 : SessionRow)
    (hu : req.sessionUid ≠ "")
    (hfind : db.sessions.find? (fun r => r.uid = req.sessionUid) = some r0) :
    List.Forall₂
      (fun (old new : SessionRow) =>
        new.id = old.id ∧ new.uid = old.uid ∧ new.name = old.name ∧
        new.model = old.model ∧ new.temperature = old.temperature ∧
        new.createdAt = old.createdAt ∧ new.modelFileId = old.modelFileId ∧
        new.templateId = old.templateId ∧ new.isArchive = old.isArchive ∧
        new.jsonMeta = old.jsonMeta ∧
        (old.uid ≠ req.sessionUid → new.updatedAt = old.updatedAt))
      db.sessions (saveChatMessage now fsu fcu req resp db).sessions := by
  have hsess : (saveChatMessage now fsu fcu req resp db).sessions =
      updateSessionsUpdatedAt db.sessions req.sessionUid now := by
    unfold saveChatMessage
    rw [lookupSession_found db req.sessionUid r0 hu hfind]
    rfl
  rw [hsess]
  unfold updateSessionsUpdatedAt
  apply forall2_map_self
  intro a
  by_cases h : a.uid = req.sessionUid
  · simp [h]
  · simp [h]

/-- C8 witness: the frame theorem at a concrete database with one session
of uid `"s"`. -/
theorem save_chat_frame_sessions_witness :
    (("s" : String) ≠ "") ∧
    List.Forall₂
      (fun (old new : SessionRow) =>
        new.id = old.id ∧ new.uid = old.uid ∧ new.name = old.name ∧
        new.model = old.model ∧ new.temperature = old.temperature ∧
        new.createdAt = old.createdAt ∧ new.modelFileId = old.modelFileId ∧
        new.templateId = old.templateId ∧ new.isArchive = old.isArchive ∧
        new.jsonMeta = old.jsonMeta ∧
        (old.uid ≠ "s" → new.updatedAt = old.updatedAt))
      [⟨1, "s", "n", "m", none, "t0", "t0", none, none, 0, none⟩]
      (saveChatMessage "t1" "x1" "x2" ⟨"Hello", "llama3.2", none, false, "s", "", none, "m0"⟩
          ⟨none, some ⟨"Hi", "assistant"⟩⟩
          ⟨[⟨1, "s", "n", "m", none, "t0", "t0", none, none, 0, none⟩], [], [], 2, 1⟩).sessions :=
  ⟨by decide,
   save_chat_frame_sessions "t1" "x1" "x2"
     ⟨"Hello", "llama3.2", none, false, "s", "", none, "m0"⟩
     ⟨none, some ⟨"Hi", "assistant"⟩⟩
     ⟨[⟨1, "s", "n", "m", none, "t0", "t0", none, none, 0, none⟩], [], [], 2, 1⟩
     ⟨1, "s", "n", "m", none, "t0", "t0", none, none, 0, none⟩
     (by decide) rfl⟩

/-- C9: the temperature forwarded to the inference endpoint is the
requested one when it is truthy, and 0.7 otherwise; in particular a literal
0 is replaced by 0.7 exactly like an absent temperature. -/
theorem forwarded_temperature_policy (req : ChatRequest) (t : ℚ) :
    (req.temperature = some t → t ≠ 0 → (buildChatBody req).temperature = t) ∧
    (req.temperature = some 0 → (buildChatBody req).temperature = 7/10) ∧
    (req.temperature = none → (buildChatBody req).temperature = 7/10) := by
  refine ⟨?_, ?_, ?_⟩
  · intro h hn
    simp [buildChatBody, forwardedTemperature, h, hn]
  · intro h
    simp [buildChatBody, forwardedTemperature, h]
  · intro h
    simp [buildChatBody, forwardedTemperature, h]

/-- C9 witness: a request with the literal temperature 0 is forwarded with
temperature 0.7. -/
theorem forwarded_temperature_policy_witness :
    ((⟨"q", "m", some 0, false, "", "", none, "m0"⟩ : ChatRequest).temperature = some 0) ∧
    (buildChatBody ⟨"q", "m", some 0, false, "", "", none, "m0"⟩).temperature = 7/10 :=
  ⟨rfl, (forwarded_temperature_policy ⟨"q", "m", some 0, false, "", "", none, "m0"⟩ 0).2.1 rfl⟩

/-- C10: a `PUT /session/:sessionUid` on an existing session in which no
updatable field is effectively supplied (name, model, modelFileId,
templateId, jsonMeta absent or falsy; temperature and isArchive undefined)
answers 400 and leaves the whole database — in particular the session row
and its `updatedAt` — unchanged. -/
theorem put_session_no_fields_400_unchanged (sessionUid now : String)
    (b : PutSessionBody) (db : Db) (s : SessionRow)
    (hfind : db.sessions.find? (fun r => r.uid = sessionUid) = some s)
    (hname : truthyStr b.name = false) (hmodel : truthyStr b.model = false)
    (htemp : b.temperature = none) (hmf : truthyInt b.modelFileId = false)
    (htpl : truthyInt b.templateId = false) (harch : b.isArchive = none)
    (hjson : truthyStr b.jsonMeta = false) :
    putSessionHandler sessionUid b now db = (400, db) := by
  have hfields : putUpdateFields b = [] := by
    simp [putUpdateFields, hname, hmodel, htemp, hmf, htpl, harch, hjson]
  unfold putSessionHandler
  rw [hfind]
  simp [hfields]

/-- C10 witness: the handler at a concrete database and an all-absent
body. -/
theorem put_session_no_fields_400_unchanged_witness :
    truthyStr (none : Option String) = false ∧
    putSessionHandler "s" ⟨none, none, none, none, none, none, none⟩ "t1"
        ⟨[⟨1, "s", "n", "m", none, "t0", "t0", none, none, 0, none⟩], [], [], 2, 1⟩
      = (400, ⟨[⟨1, "s", "n", "m", none, "t0", "t0", none, none, 0, none⟩], [], [], 2, 1⟩) :=
  ⟨rfl,
   put_session_no_fields_400_unchanged "s" "t1" ⟨none, none, none, none, none, none, none⟩
     ⟨[⟨1, "s", "n", "m", none, "t0", "t0", none, none, 0, none⟩], [], [], 2, 1⟩
     ⟨1, "s", "n", "m", none, "t0", "t0", none, none, 0, none⟩
     rfl rfl rfl rfl rfl rfl rfl rfl⟩

end AgentOne
